import Mathlib

/-!
Verification of the DaikinNA climate adapter (`homeassistant/components/daikinone/climate.py`).

The adapter translates between vendor integer mode codes and the host
platform's HVAC vocabulary, derives entity state from cached vendor device
fields, and forwards user commands to vendor setter calls.  We embed the
translation tables, the state-deriving getters and the two async setters as
pure Lean functions; Python exceptions become `Except` / `Option` results and
the sequence of vendor `set_device_value` calls becomes an explicit list.
-/

namespace DaikinOne

/-- Host platform HVAC mode enumeration (`homeassistant.components.climate.HVACMode`):
`off`, `heat`, `cool`, `heat_cool`, `auto`, `dry`, `fan_only`. -/
inductive HVACMode
  | off
  | heat
  | cool
  | heat_cool
  | auto
  | dry
  | fan_only
deriving DecidableEq, Repr, Fintype

/-- Python-level exceptions that the climate adapter can raise:
`KeyError` from a direct dict access, `ValueError` from `list.index`,
`UpdateFailed(msg)` from the adapter's own error signalling, and an opaque
exception coming out of the vendor client. -/
inductive PyError
  | keyError
  | valueError
  | updateFailed (msg : String)
  | vendorException
deriving DecidableEq, Repr

/-- The cached vendor device fields (`self._device.device_data.*`) that the
climate adapter reads.  Temperatures carry no arithmetic here, so they are
embedded as integers. -/
structure DeviceData where
  power : Bool
  mode : Nat
  real_mode : Nat
  speed_state : Nat
  work_temp : Int
  setpoint_air_cool : Int
  setpoint_air_heat : Int
  setpoint_air_auto : Int
deriving DecidableEq, Repr

/-- `DKN_MODE_TO_HVAC_MODE`: the 5-entry vendor-code → host-mode dict, in its
Python insertion order `{5: DRY, 4: FAN_ONLY, 3: HEAT, 2: COOL, 1: HEAT_COOL}`. -/
def DKN_MODE_TO_HVAC_MODE : List (Nat × HVACMode) :=
  [(5, .dry), (4, .fan_only), (3, .heat), (2, .cool), (1, .heat_cool)]

/-- `DKN_MODE_TO_FAN_MODE = {0: FAN_AUTO, 2: FAN_LOW, 4: FAN_MEDIUM, 6: FAN_HIGH}`;
the host fan-mode constants are the strings "auto", "low", "medium", "high". -/
def DKN_MODE_TO_FAN_MODE : List (Nat × String) :=
  [(0, "auto"), (2, "low"), (4, "medium"), (6, "high")]

/-- `DaikinNADevice._hvac_mode_to_dkn_mode`:
`list(DKN_MODE_TO_HVAC_MODE.keys())[list(DKN_MODE_TO_HVAC_MODE.values()).index(hvac_mode)]`.
Python's `list.index` raises `ValueError` when the value is absent, embedded as
`none`. -/
def hvac_mode_to_dkn_mode (hvac_mode : HVACMode) : Option Nat :=
  ((DKN_MODE_TO_HVAC_MODE.map Prod.snd).findIdx? (· == hvac_mode)).bind
    fun i => (DKN_MODE_TO_HVAC_MODE.map Prod.fst).get? i

/-- `DaikinNADevice._fan_mode_to_dkn_mode`: same reverse lookup over
`DKN_MODE_TO_FAN_MODE`. -/
def fan_mode_to_dkn_mode (fan_mode : String) : Option Nat :=
  ((DKN_MODE_TO_FAN_MODE.map Prod.snd).findIdx? (· == fan_mode)).bind
    fun i => (DKN_MODE_TO_FAN_MODE.map Prod.fst).get? i

/-- Forward lookup `DKN_MODE_TO_HVAC_MODE[code]` as a `dict.get`-style total
lookup returning `none` when the code is absent. -/
def dkn_mode_get (code : Nat) : Option HVACMode :=
  DKN_MODE_TO_HVAC_MODE.lookup code

/-- `DaikinNADevice.hvac_action`: returns `HVACMode.OFF` when power is off,
otherwise `DKN_MODE_TO_HVAC_MODE.get(real_mode)` — a defaulting lookup that
yields Python `None` (`none`) on an unknown code. -/
def hvac_action (d : DeviceData) : Option HVACMode :=
  if d.power = false then
    some HVACMode.off
  else
    dkn_mode_get d.real_mode

/-- `DaikinNADevice.hvac_mode`: returns `HVACMode.OFF` when power is off,
otherwise the direct dict access `DKN_MODE_TO_HVAC_MODE[mode]`, which raises
`KeyError` on an unknown code. -/
def hvac_mode (d : DeviceData) : Except PyError HVACMode :=
  if d.power = false then
    .ok HVACMode.off
  else
    match dkn_mode_get d.mode with
    | some m => .ok m
    | none => .error .keyError

/-- `DaikinNADevice.target_temperature`: selects one of the three vendor
setpoint fields according to the derived `hvac_mode`, `None` otherwise; a
`KeyError` from `hvac_mode` propagates. -/
def target_temperature (d : DeviceData) : Except PyError (Option Int) :=
  match hvac_mode d with
  | .error e => .error e
  | .ok m =>
    if m = HVACMode.cool then .ok (some d.setpoint_air_cool)
    else if m = HVACMode.heat then .ok (some d.setpoint_air_heat)
    else if m = HVACMode.heat_cool then .ok (some d.setpoint_air_auto)
    else .ok none

/-- A value passed to the vendor setter `set_device_value`. -/
inductive DeviceValue
  | nat (n : Nat)
  | bool (b : Bool)
  | temp (t : Int)
deriving DecidableEq, Repr

/-- One vendor `set_device_value(prop, value)` call. -/
structure SetCall where
  prop : String
  value : DeviceValue
deriving DecidableEq, Repr

/-- Observable outcome of `async_set_hvac_mode`: the vendor set calls issued
in order, whether `schedule_update_ha_state` was called, and the exception
escaping the coroutine, if any. -/
structure HvacSetResult where
  calls : List SetCall
  scheduled : Bool
  error : Option PyError
deriving DecidableEq, Repr

/-- `DaikinNADevice.async_set_hvac_mode`:
`current_power_state := power is True`; `new_power_state := hvac_mode != OFF`;
if `new_power_state` then `set_device_value("mode", reverse-lookup)` (a
`ValueError` in the reverse lookup aborts before any call); then if
`new_power_state != current_power_state`, `set_device_value("power", new)` and
`schedule_update_ha_state()`. -/
def async_set_hvac_mode (d : DeviceData) (hvac_mode : HVACMode) : HvacSetResult :=
  let current_power_state : Bool := d.power
  let new_power_state : Bool := hvac_mode != HVACMode.off
  if new_power_state then
    match hvac_mode_to_dkn_mode hvac_mode with
    | none => { calls := [], scheduled := false, error := some .valueError }
    | some code =>
      let mode_calls := [SetCall.mk "mode" (.nat code)]
      if new_power_state != current_power_state then
        { calls := mode_calls ++ [SetCall.mk "power" (.bool new_power_state)]
          scheduled := true, error := none }
      else
        { calls := mode_calls, scheduled := false, error := none }
  else
    if new_power_state != current_power_state then
      { calls := [SetCall.mk "power" (.bool new_power_state)], scheduled := true, error := none }
    else
      { calls := [], scheduled := false, error := none }

/-- `DaikinNADevice.async_set_temperature`: raises `UpdateFailed` when the
temperature kwarg is missing; selects the setpoint field from the derived
`hvac_mode`, raising `UpdateFailed("Invalid hvac_mode:  %s")` when it is none
of COOL/HEAT/HEAT_COOL; and wraps any exception from the vendor setter into
`UpdateFailed("set_temperature update failed")`.  The vendor setter's outcome
is a parameter: `vendor_error = some e` means `set_device_value` would raise
`e`. -/
def async_set_temperature (d : DeviceData) (temperature : Option Int)
    (vendor_error : Option PyError) : Except PyError SetCall :=
  match temperature with
  | none => .error (.updateFailed "No target temperature specified")
  | some t =>
    match hvac_mode d with
    | .error e => .error e
    | .ok m =>
      let property_to_update : Option String :=
        if m = HVACMode.cool then some "setpoint_air_cool"
        else if m = HVACMode.heat then some "setpoint_air_heat"
        else if m = HVACMode.heat_cool then some "setpoint_air_auto"
        else none
      match property_to_update with
      | none => .error (.updateFailed "Invalid hvac_mode:  %s")
      | some p =>
        match vendor_error with
        | some _ => .error (.updateFailed "set_temperature update failed")
        | none => .ok (SetCall.mk p (.temp t))

/-- A concrete device state used by the witnesses: power `p`, vendor mode code
`m` in both the `mode` and `real_mode` fields, and fixed setpoints. -/
def sample (p : Bool) (m : Nat) : DeviceData :=
  { power := p, mode := m, real_mode := m, speed_state := 0,
    work_temp := 71, setpoint_air_cool := 72, setpoint_air_heat := 68,
    setpoint_air_auto := 70 }

/-- If a code is absent from the keys of the 5-entry HVAC table, the forward
`dict.get`-style lookup yields `none`. -/
lemma dkn_mode_get_eq_none (c : Nat)
    (h : c ∉ DKN_MODE_TO_HVAC_MODE.map Prod.fst) : dkn_mode_get c = none := by
  simp [DKN_MODE_TO_HVAC_MODE] at h
  obtain ⟨h5, h4, h3, h2, h1⟩ := h
  simp [dkn_mode_get, DKN_MODE_TO_HVAC_MODE, List.lookup,
    beq_eq_false_iff_ne.mpr h5, beq_eq_false_iff_ne.mpr h4,
    beq_eq_false_iff_ne.mpr h3, beq_eq_false_iff_ne.mpr h2,
    beq_eq_false_iff_ne.mpr h1]

/-- C1: for every vendor mode code in the 5-entry HVAC translation table,
translating the code to a host HVAC mode via the forward table and then
translating that mode back via the reverse lookup yields the original code. -/
theorem dkn_hvac_mode_roundtrip (c : Nat)
    (hc : c ∈ DKN_MODE_TO_HVAC_MODE.map Prod.fst) :
    (dkn_mode_get c).bind hvac_mode_to_dkn_mode = some c := by
  fin_cases hc <;> decide

theorem dkn_hvac_mode_roundtrip_witness :
    (5 : Nat) ∈ DKN_MODE_TO_HVAC_MODE.map Prod.fst ∧
      (dkn_mode_get 5).bind hvac_mode_to_dkn_mode = some 5 :=
  ⟨by decide, dkn_hvac_mode_roundtrip 5 (by decide)⟩

/-- C2 (counterexample): calling `async_set_hvac_mode` with the non-OFF host
mode AUTO while power is off issues zero vendor set calls (the reverse lookup
raises `ValueError` first), not the two calls the claim requires. -/
theorem set_hvac_mode_auto_zero_calls :
    HVACMode.auto ≠ HVACMode.off ∧ (sample false 2).power = false ∧
      async_set_hvac_mode (sample false 2) HVACMode.auto =
        { calls := [], scheduled := false, error := some .valueError } := by
  decide

/-- C2 (amended): for every call to `async_set_hvac_mode` with a non-OFF
target mode that is present in the translation table, while power is false,
the adapter issues exactly two vendor set calls — first the mode-code update,
then the power-on update — and schedules a host state update. -/
theorem set_hvac_mode_on_from_off (d : DeviceData) (m : HVACMode) (c : Nat)
    (hoff : m ≠ HVACMode.off) (hp : d.power = false)
    (hc : hvac_mode_to_dkn_mode m = some c) :
    async_set_hvac_mode d m =
      { calls := [SetCall.mk "mode" (.nat c), SetCall.mk "power" (.bool true)]
        scheduled := true, error := none } := by
  have h1 : (m != HVACMode.off) = true := bne_iff_ne.mpr hoff
  simp [async_set_hvac_mode, hp, hc, h1]

theorem set_hvac_mode_on_from_off_witness :
    HVACMode.heat ≠ HVACMode.off ∧ (sample false 2).power = false ∧
      hvac_mode_to_dkn_mode HVACMode.heat = some 3 ∧
      async_set_hvac_mode (sample false 2) HVACMode.heat =
        { calls := [SetCall.mk "mode" (.nat 3), SetCall.mk "power" (.bool true)]
          scheduled := true, error := none } :=
  ⟨by decide, by decide, by decide,
    set_hvac_mode_on_from_off (sample false 2) HVACMode.heat 3 (by decide)
      (by decide) (by decide)⟩

/-- C3: `async_set_hvac_mode` with target OFF never issues a mode-code vendor
command; its call list is either empty or the single power-off update. -/
theorem set_hvac_mode_off_no_mode_call (d : DeviceData) :
    ((async_set_hvac_mode d HVACMode.off).calls.all
        fun sc => sc.prop != "mode") = true ∧
      ((async_set_hvac_mode d HVACMode.off).calls = [] ∨
        (async_set_hvac_mode d HVACMode.off).calls =
          [SetCall.mk "power" (.bool false)]) := by
  cases hp : d.power <;> simp [async_set_hvac_mode, hp]

/-- C4: `target_temperature` returns the cool setpoint when the derived HVAC
mode is COOL, the heat setpoint for HEAT, the auto setpoint for HEAT_COOL, and
`None` when the derived mode is FAN_ONLY, DRY or OFF. -/
theorem target_temperature_selection (d : DeviceData) :
    (hvac_mode d = .ok HVACMode.cool →
      target_temperature d = .ok (some d.setpoint_air_cool)) ∧
    (hvac_mode d = .ok HVACMode.heat →
      target_temperature d = .ok (some d.setpoint_air_heat)) ∧
    (hvac_mode d = .ok HVACMode.heat_cool →
      target_temperature d = .ok (some d.setpoint_air_auto)) ∧
    (hvac_mode d = .ok HVACMode.fan_only ∨ hvac_mode d = .ok HVACMode.dry ∨
        hvac_mode d = .ok HVACMode.off →
      target_temperature d = .ok none) := by
  refine ⟨fun h => ?_, fun h => ?_, fun h => ?_, fun h => ?_⟩
  · simp [target_temperature, h]
  · simp [target_temperature, h]
  · simp [target_temperature, h]
  · rcases h with h | h | h <;> simp [target_temperature, h]

theorem target_temperature_selection_witness :
    target_temperature (sample true 2) = .ok (some 72) ∧
    target_temperature (sample true 3) = .ok (some 68) ∧
    target_temperature (sample true 1) = .ok (some 70) ∧
    target_temperature (sample true 4) = .ok none ∧
    target_temperature (sample true 5) = .ok none ∧
    target_temperature (sample false 2) = .ok none :=
  ⟨(target_temperature_selection (sample true 2)).1 rfl,
   (target_temperature_selection (sample true 3)).2.1 rfl,
   (target_temperature_selection (sample true 1)).2.2.1 rfl,
   (target_temperature_selection (sample true 4)).2.2.2 (Or.inl rfl),
   (target_temperature_selection (sample true 5)).2.2.2
     (Or.inr (Or.inl rfl)),
   (target_temperature_selection (sample false 2)).2.2.2
     (Or.inr (Or.inr rfl))⟩

/-- C5: when the device's power field is false the `hvac_mode` getter returns
OFF regardless of the stored vendor mode code; when power is true it returns
the forward-table lookup of the mode code. -/
theorem hvac_mode_power_gate (d : DeviceData) :
    (d.power = false → hvac_mode d = .ok HVACMode.off) ∧
    (d.power = true → ∀ m, dkn_mode_get d.mode = some m →
      hvac_mode d = .ok m) := by
  refine ⟨fun hp => ?_, fun hp m hm => ?_⟩
  · simp [hvac_mode, hp]
  · simp [hvac_mode, hp, hm]

theorem hvac_mode_power_gate_witness :
    hvac_mode (sample false 4) = .ok HVACMode.off ∧
      hvac_mode (sample true 2) = .ok HVACMode.cool :=
  ⟨(hvac_mode_power_gate (sample false 4)).1 rfl,
   (hvac_mode_power_gate (sample true 2)).2 rfl HVACMode.cool rfl⟩

/-- C6: `async_set_temperature` raises `UpdateFailed` when the temperature
argument is missing or when the derived HVAC mode is none of COOL, HEAT,
HEAT_COOL; and any exception raised by the vendor setter is re-raised as the
same `UpdateFailed`, independent of the original exception. -/
theorem set_temperature_errors (d : DeviceData) (t : Option Int)
    (v : Option PyError) :
    (t = none → async_set_temperature d t v =
      .error (.updateFailed "No target temperature specified")) ∧
    (∀ m, hvac_mode d = .ok m → m ≠ HVACMode.cool → m ≠ HVACMode.heat →
      m ≠ HVACMode.heat_cool → ∀ x, t = some x →
      async_set_temperature d t v =
        .error (.updateFailed "Invalid hvac_mode:  %s")) ∧
    (∀ e, v = some e → ∀ m, hvac_mode d = .ok m →
      (m = HVACMode.cool ∨ m = HVACMode.heat ∨ m = HVACMode.heat_cool) →
      ∀ x, t = some x →
      async_set_temperature d t v =
        .error (.updateFailed "set_temperature update failed")) := by
  refine ⟨fun ht => ?_, fun m hm h1 h2 h3 x hx => ?_,
    fun e he m hm hmem x hx => ?_⟩
  · simp [async_set_temperature, ht]
  · simp [async_set_temperature, hx, hm, h1, h2, h3]
  · rcases hmem with h | h | h <;>
      simp [async_set_temperature, hx, hm, he, h]

theorem set_temperature_errors_witness :
    async_set_temperature (sample true 2) none none =
      .error (.updateFailed "No target temperature specified") ∧
    async_set_temperature (sample true 4) (some 72) none =
      .error (.updateFailed "Invalid hvac_mode:  %s") ∧
    async_set_temperature (sample true 2) (some 72)
        (some PyError.vendorException) =
      .error (.updateFailed "set_temperature update failed") :=
  ⟨(set_temperature_errors (sample true 2) none none).1 rfl,
   (set_temperature_errors (sample true 4) (some 72) none).2.1
     HVACMode.fan_only rfl (by decide) (by decide) (by decide) 72 rfl,
   (set_temperature_errors (sample true 2) (some 72)
       (some PyError.vendorException)).2.2
     PyError.vendorException rfl HVACMode.cool rfl
     (Or.inl rfl) 72 rfl⟩

/-- C7: the reverse lookup from host HVAC mode to vendor code fails (raises
`ValueError`, embedded as `none`) for every mode absent from the 5-entry
table, including OFF. -/
theorem hvac_mode_to_dkn_mode_fails_off_table (m : HVACMode)
    (hm : m ∉ DKN_MODE_TO_HVAC_MODE.map Prod.snd) :
    hvac_mode_to_dkn_mode m = none ∧ hvac_mode_to_dkn_mode HVACMode.off = none := by
  revert hm
  revert m
  decide

theorem hvac_mode_to_dkn_mode_fails_off_table_witness :
    HVACMode.off ∉ DKN_MODE_TO_HVAC_MODE.map Prod.snd ∧
      hvac_mode_to_dkn_mode HVACMode.off = none :=
  ⟨by decide,
    (hvac_mode_to_dkn_mode_fails_off_table HVACMode.off (by decide)).1⟩

/-- C8: for every vendor fan-speed code in the 4-entry fan translation table,
translating the code to a host fan mode via the forward table and then back
via the reverse lookup yields the original code. -/
theorem dkn_fan_mode_roundtrip (c : Nat)
    (hc : c ∈ DKN_MODE_TO_FAN_MODE.map Prod.fst) :
    (DKN_MODE_TO_FAN_MODE.lookup c).bind fan_mode_to_dkn_mode = some c := by
  fin_cases hc <;> decide

theorem dkn_fan_mode_roundtrip_witness :
    (6 : Nat) ∈ DKN_MODE_TO_FAN_MODE.map Prod.fst ∧
      (DKN_MODE_TO_FAN_MODE.lookup 6).bind fan_mode_to_dkn_mode = some 6 :=
  ⟨by decide, dkn_fan_mode_roundtrip 6 (by decide)⟩

/-- C9: calling `async_set_hvac_mode` with target OFF while power is already
false issues no vendor set calls, schedules no host state update and raises
nothing: a complete no-op. -/
theorem set_hvac_mode_off_while_off_noop (d : DeviceData)
    (hp : d.power = false) :
    async_set_hvac_mode d HVACMode.off =
      { calls := [], scheduled := false, error := none } := by
  simp [async_set_hvac_mode, hp]

theorem set_hvac_mode_off_while_off_noop_witness :
    (sample false 2).power = false ∧
      async_set_hvac_mode (sample false 2) HVACMode.off =
        { calls := [], scheduled := false, error := none } :=
  ⟨by decide, set_hvac_mode_off_while_off_noop (sample false 2) (by decide)⟩

/-- C10: when power is true and the (shared) mode code is absent from the
5-entry table, `hvac_action` returns `None` via its defaulting `.get` lookup
while `hvac_mode` raises `KeyError` via its direct dict access: the two
getters disagree in their error behavior on the same unknown code. -/
theorem hvac_action_mode_disagree (d : DeviceData) (c : Nat)
    (hp : d.power = true) (hm : d.mode = c) (hr : d.real_mode = c)
    (hc : c ∉ DKN_MODE_TO_HVAC_MODE.map Prod.fst) :
    hvac_action d = none ∧ hvac_mode d = .error PyError.keyError := by
  have hget := dkn_mode_get_eq_none c hc
  constructor
  · simp [hvac_action, hp, hr, hget]
  · simp [hvac_mode, hp, hm, hget]

theorem hvac_action_mode_disagree_witness :
    (sample true 7).power = true ∧
      (7 : Nat) ∉ DKN_MODE_TO_HVAC_MODE.map Prod.fst ∧
      hvac_action (sample true 7) = none ∧
      hvac_mode (sample true 7) = .error PyError.keyError :=
  ⟨rfl, by decide,
    (hvac_action_mode_disagree (sample true 7) 7 rfl rfl rfl (by decide)).1,
    (hvac_action_mode_disagree (sample true 7) 7 rfl rfl rfl (by decide)).2⟩

end DaikinOne
